import Mathlib

set_option maxRecDepth 100000

/-!
Verification development for the HTU21D ESP-IDF sensor driver.

The driver source is htu21d.c.  Pure logic (the CRC check, the register
masking, the unit-conversion formulas) is embedded directly; the external
I2C transport (link allocation and transaction execution) is modelled by
small environment records that record what the transport reported, and
each driver routine becomes a pure function of such an environment.
Machine integers are modelled as Nat with explicit reductions modulo 256
and 65536 where the C types truncate; C float arithmetic is modelled
exactly over the rationals.
-/

/-- Result codes reported by the external ESP-IDF transport.  The driver
only distinguishes ESP_OK, ESP_ERR_INVALID_ARG, ESP_FAIL,
ESP_ERR_INVALID_STATE and ESP_ERR_TIMEOUT; the remaining constructors
stand for the other non-success codes of the transport (for example
ESP_ERR_NO_MEM), which the driver never names. -/
inductive EspErr where
  | espOk
  | espFail
  | espErrNoMem
  | espErrInvalidArg
  | espErrInvalidState
  | espErrInvalidSize
  | espErrTimeout
  deriving DecidableEq

/-- Driver status code HTU21D_ERR_OK (value from the repository README). -/
def HTU21D_ERR_OK : Nat := 0x00

/-- Driver status code HTU21D_ERR_CONFIG. -/
def HTU21D_ERR_CONFIG : Nat := 0x01

/-- Driver status code HTU21D_ERR_INSTALL. -/
def HTU21D_ERR_INSTALL : Nat := 0x02

/-- Driver status code HTU21D_ERR_NOTFOUND. -/
def HTU21D_ERR_NOTFOUND : Nat := 0x03

/-- Driver status code HTU21D_ERR_INVALID_ARG. -/
def HTU21D_ERR_INVALID_ARG : Nat := 0x04

/-- Driver status code HTU21D_ERR_FAIL. -/
def HTU21D_ERR_FAIL : Nat := 0x05

/-- Driver status code HTU21D_ERR_INVALID_STATE. -/
def HTU21D_ERR_INVALID_STATE : Nat := 0x06

/-- Driver status code HTU21D_ERR_TIMEOUT. -/
def HTU21D_ERR_TIMEOUT : Nat := 0x07

/-- Command byte 0xF3, trigger temperature measurement, no hold
(value from the repository README). -/
def TRIGGER_TEMP_MEASURE_NOHOLD : Nat := 0xF3

/-- Command byte 0xF5, trigger humidity measurement, no hold. -/
def TRIGGER_HUMD_MEASURE_NOHOLD : Nat := 0xF5

/-- HTU21_RESET_TIME, the 15 ms post-reset delay of htu21d.c. -/
def HTU21_RESET_TIME : Nat := 15

/-- One iteration of the CRC loop of is_crc_valid (htu21d.c lines 425-435):
at iteration i the divisor has been right-shifted i times from its initial
value 0x988000, and the loop tests bit 23 - i of the running row, XORing
the divisor in when that bit is set. -/
def crcStep (i row : Nat) : Nat :=
  if row.testBit (23 - i) then row ^^^ (0x988000 >>> i) else row

/-- The first n iterations of the CRC loop of is_crc_valid, starting from
the given 24-bit row.  The driver runs exactly 16 iterations. -/
def crcFold (n row : Nat) : Nat :=
  (List.range n).foldl (fun row i => crcStep i row) row

/-- Embedding of is_crc_valid (htu21d.c lines 415-439): the row is the
16-bit value shifted left by 8 bits ORed with the 8-bit crc, the divisor
0x988000 is the generator polynomial left-aligned to bit 23, and after the
16 loop iterations the check succeeds exactly when the row is zero.
The reductions modulo 65536 and 256 model the uint16_t and uint8_t
parameter types. -/
def is_crc_valid (value crc : Nat) : Bool :=
  crcFold 16 (((value % 65536) <<< 8) ||| (crc % 256)) == 0

/-- Specification-side step of GF(2) polynomial long division: at
iteration i the bit position 23 - i of the running value is examined and,
when set, the generator x^8 + x^5 + x^4 + 1 (bit pattern 0x131) is XORed
in, aligned so that its leading bit cancels that position. -/
def gf2Step (i a : Nat) : Nat :=
  if a.testBit (23 - i) then a ^^^ (0x131 <<< (23 - i - 8)) else a

/-- The first n steps of the specification-side GF(2) long division. -/
def gf2Fold (n a : Nat) : Nat :=
  (List.range n).foldl (fun a i => gf2Step i a) a

/-- Specification-side remainder of GF(2) polynomial long division of a
24-bit message by the generator x^8 + x^5 + x^4 + 1: positions 23 down
to 8 are eliminated in order, leaving the remainder in the low 8 bits. -/
def gf2Remainder (m : Nat) : Nat :=
  gf2Fold 16 m

/-- Environment recording what the external transport did during one call
of read_value: whether each of the two command links could be allocated,
the result of each of the two executed transactions, and the three bytes
(most significant, least significant, checksum) delivered by the sensor
on the read transaction. -/
structure I2CReadEnv where
  alloc1 : Bool
  ret1 : EspErr
  alloc2 : Bool
  msb : Nat
  lsb : Nat
  crc : Nat
  ret2 : EspErr

/-- Embedding of read_value (htu21d.c lines 361-412): the sentinel 0 is
returned when either link allocation fails or either transaction reports
a non-success status; otherwise the raw word is assembled big-endian from
the two data bytes and returned with the two status bits masked off.
The CRC check on the assembled word only feeds a log message in the
source (lines 408-410), so it does not influence the returned value.
The command byte is transmitted on the bus but never read back, hence the
result does not depend on it. -/
def read_value (env : I2CReadEnv) (command : Nat) : Nat :=
  if env.alloc1 = false then 0
  else if env.ret1 ≠ EspErr.espOk then 0
  else if env.alloc2 = false then 0
  else if env.ret2 ≠ EspErr.espOk then 0
  else (((env.msb % 256) <<< 8) ||| (env.lsb % 256)) &&& 0xFFFC

/-- Embedding of htu21d_read_temperature (htu21d.c lines 101-111):
raw value 0 yields the sentinel -999, any other raw value is converted by
the datasheet formula.  C float arithmetic is modelled exactly over Q. -/
def htu21d_read_temperature (env : I2CReadEnv) : ℚ :=
  let raw_temperature := read_value env TRIGGER_TEMP_MEASURE_NOHOLD
  if raw_temperature = 0 then -999
  else ((raw_temperature : ℚ) * 175.72 / 65536.0) - 46.85

/-- Embedding of htu21d_read_humidity (htu21d.c lines 140-150). -/
def htu21d_read_humidity (env : I2CReadEnv) : ℚ :=
  let raw_humidity := read_value env TRIGGER_HUMD_MEASURE_NOHOLD
  if raw_humidity = 0 then -999
  else ((raw_humidity : ℚ) * 125.0 / 65536.0) - 6.0

/-- Environment for one write-only transaction: whether the command link
could be allocated and the status the transport reported for the
executed transaction. -/
structure LinkEnv where
  alloc : Bool
  ret : EspErr

/-- Embedding of htu21d_write_user_register (htu21d.c lines 324-359):
allocation failure yields HTU21D_ERR_FAIL; the switch maps the four named
transport error codes to the corresponding driver codes and every other
code (ESP_OK included) falls through to HTU21D_ERR_OK.  The value byte is
written on the bus and does not influence the returned status. -/
def htu21d_write_user_register (env : LinkEnv) (value : Nat) : Nat :=
  if env.alloc = false then HTU21D_ERR_FAIL
  else
    match env.ret with
    | EspErr.espErrInvalidArg => HTU21D_ERR_INVALID_ARG
    | EspErr.espFail => HTU21D_ERR_FAIL
    | EspErr.espErrInvalidState => HTU21D_ERR_INVALID_STATE
    | EspErr.espErrTimeout => HTU21D_ERR_TIMEOUT
    | _ => HTU21D_ERR_OK

/-- Embedding of htu21d_soft_reset (htu21d.c lines 235-278).  The second
component records how many milliseconds the function delays before
returning: the four mapped error codes return immediately, every other
transport result falls through the switch, performs the 15 ms reset delay
and returns HTU21D_ERR_OK. -/
def htu21d_soft_reset (env : LinkEnv) : Nat × Nat :=
  if env.alloc = false then (HTU21D_ERR_FAIL, 0)
  else
    match env.ret with
    | EspErr.espErrInvalidArg => (HTU21D_ERR_INVALID_ARG, 0)
    | EspErr.espFail => (HTU21D_ERR_FAIL, 0)
    | EspErr.espErrInvalidState => (HTU21D_ERR_INVALID_STATE, 0)
    | EspErr.espErrTimeout => (HTU21D_ERR_TIMEOUT, 0)
    | _ => (HTU21D_ERR_OK, HTU21_RESET_TIME)

/-- Embedding of htu21d_get_resolution (htu21d.c lines 195-199) under a
successful transport: the argument is the current content of the user
register as delivered by htu21d_read_user_register, and the result is
that byte masked to bits 7 and 0. -/
def htu21d_get_resolution (reg_value : Nat) : Nat :=
  (reg_value % 256) &&& 0b10000001

/-- Embedding of the register computation of htu21d_set_resolution
(htu21d.c lines 201-213) under a successful transport: the first argument
is the current user register content as read back, the second the
requested resolution, and the result is the byte passed to
htu21d_write_user_register: the old register masked to bits 7 and 0,
ORed with the new resolution masked to bits 7 and 0. -/
def htu21d_set_resolution (reg_value resolution : Nat) : Nat :=
  ((reg_value % 256) &&& 0b10000001) ||| ((resolution % 256) &&& 0b10000001)

/-- Environment for one call of htu21d_init: whether i2c_param_config and
i2c_driver_install succeeded, whether the probe command link could be
allocated, the transport status of the probe transaction, and the
environment seen by the soft reset should it be reached. -/
structure InitEnv where
  configOk : Bool
  installOk : Bool
  probeAlloc : Bool
  probeRet : EspErr
  resetEnv : LinkEnv

/-- Embedding of htu21d_init (htu21d.c lines 43-94).  The second
component records whether the soft-reset command was attempted.
Configuration, installation and probe failures each return their error
code without reaching the soft reset; once the probe succeeds the soft
reset runs and a non-OK result of it is returned, otherwise
HTU21D_ERR_OK. -/
def htu21d_init (env : InitEnv) : Nat × Bool :=
  if env.configOk = false then (HTU21D_ERR_CONFIG, false)
  else if env.installOk = false then (HTU21D_ERR_INSTALL, false)
  else if env.probeAlloc = false then (HTU21D_ERR_FAIL, false)
  else if env.probeRet ≠ EspErr.espOk then (HTU21D_ERR_NOTFOUND, false)
  else
    let ret := (htu21d_soft_reset env.resetEnv).1
    if ret ≠ HTU21D_ERR_OK then (ret, true) else (HTU21D_ERR_OK, true)

theorem xor_cancel_left (d b : Nat) : d ^^^ (d ^^^ b) = b := by
  rw [← Nat.xor_assoc, Nat.xor_self, Nat.zero_xor]

theorem xor_left_comm (a b c : Nat) : a ^^^ (b ^^^ c) = b ^^^ (a ^^^ c) := by
  rw [← Nat.xor_assoc, Nat.xor_comm a b, Nat.xor_assoc]

theorem crcFold_zero (row : Nat) : crcFold 0 row = row := rfl

theorem crcFold_succ (n row : Nat) : crcFold (n + 1) row = crcStep n (crcFold n row) := by
  unfold crcFold
  rw [List.range_succ, List.foldl_append]
  rfl

theorem gf2Fold_zero (a : Nat) : gf2Fold 0 a = a := rfl

theorem gf2Fold_succ (n a : Nat) : gf2Fold (n + 1) a = gf2Step n (gf2Fold n a) := by
  unfold gf2Fold
  rw [List.range_succ, List.foldl_append]
  rfl

theorem lt_two_pow_of_testBit_false {x s : Nat} (hx : x < 2 ^ (s + 1))
    (hb : x.testBit s = false) : x < 2 ^ s := by
  apply Nat.lt_pow_two_of_testBit
  intro i hi
  rcases Nat.eq_or_lt_of_le hi with h | h
  · exact h ▸ hb
  · exact Nat.testBit_lt_two_pow
      (lt_of_lt_of_le hx (Nat.pow_le_pow_right (by norm_num) h))

theorem crcStep_bound {i row : Nat} (hi : i ≤ 15) (hr : row < 2 ^ (24 - i)) :
    crcStep i row < 2 ^ (23 - i) := by
  have hs : 24 - i = (23 - i) + 1 := by omega
  have hd : 0x988000 >>> i < 2 ^ (24 - i) := by
    rw [Nat.shiftRight_eq_div_pow]
    rw [Nat.div_lt_iff_lt_mul (Nat.pos_pow_of_pos i (by norm_num))]
    rw [← pow_add]
    have : 24 - i + i = 24 := by omega
    rw [this]
    norm_num
  have hds : (0x988000 >>> i).testBit (23 - i) = true := by
    rw [Nat.testBit_shiftRight]
    have : i + (23 - i) = 23 := by omega
    rw [this]
    decide
  unfold crcStep
  rw [hs] at hr hd
  cases h : row.testBit (23 - i) with
  | false =>
    rw [if_neg Bool.false_ne_true]
    exact lt_two_pow_of_testBit_false hr h
  | true =>
    rw [if_pos rfl]
    apply lt_two_pow_of_testBit_false (Nat.xor_lt_two_pow hr hd)
    simp [Nat.testBit_xor, h, hds]

theorem crcFold_lt : ∀ n, n ≤ 16 → ∀ row, row < 2 ^ 24 → crcFold n row < 2 ^ (24 - n) := by
  intro n
  induction n with
  | zero => intro _ row h; simpa using h
  | succ m ih =>
    intro hm row hrow
    rw [crcFold_succ]
    have h1 := ih (by omega) row hrow
    have h2 := crcStep_bound (show m ≤ 15 by omega) h1
    have he : 24 - (m + 1) = 23 - m := by omega
    rw [he]
    exact h2

theorem crcStep_eq_of_lt {i r : Nat} (hi : i ≤ 15) (hr : r < 2 ^ 8) : crcStep i r = r := by
  unfold crcStep
  have : r.testBit (23 - i) = false :=
    Nat.testBit_lt_two_pow
      (lt_of_lt_of_le hr (Nat.pow_le_pow_right (by norm_num) (by omega)))
  simp [this]

theorem crcFold_eq_of_lt : ∀ n, n ≤ 16 → ∀ r, r < 2 ^ 8 → crcFold n r = r := by
  intro n
  induction n with
  | zero => intro _ r _; rfl
  | succ m ih =>
    intro hm r hr
    rw [crcFold_succ, ih (by omega) r hr, crcStep_eq_of_lt (by omega) hr]

theorem crcStep_xor (i a b : Nat) : crcStep i (a ^^^ b) = crcStep i a ^^^ crcStep i b := by
  unfold crcStep
  cases ha : a.testBit (23 - i) <;> cases hb : b.testBit (23 - i) <;>
    simp [Nat.testBit_xor, ha, hb, Nat.xor_assoc, Nat.xor_comm, xor_left_comm,
      xor_cancel_left, Nat.xor_self, Nat.xor_zero, Nat.zero_xor]

theorem crcFold_xor : ∀ n a b, crcFold n (a ^^^ b) = crcFold n a ^^^ crcFold n b := by
  intro n
  induction n with
  | zero => intro a b; rfl
  | succ m ih =>
    intro a b
    rw [crcFold_succ, crcFold_succ, crcFold_succ, ih, crcStep_xor]

theorem crcFold_two_pow_ne : ∀ j, j < 24 → crcFold 16 (2 ^ j) ≠ 0 := by decide

theorem gf2Step_eq_crcStep {i : Nat} (hi : i < 16) (a : Nat) : gf2Step i a = crcStep i a := by
  unfold gf2Step crcStep
  have e1 : 23 - i - 8 = 15 - i := by omega
  have : (0x131 : Nat) <<< (23 - i - 8) = 0x988000 >>> i := by
    rw [e1, Nat.shiftLeft_eq, Nat.shiftRight_eq_div_pow]
    have e2 : (0x988000 : Nat) = 0x131 * 2 ^ 15 := by norm_num
    rw [e2, Nat.mul_div_assoc _ (pow_dvd_pow 2 (by omega : i ≤ 15)),
      Nat.pow_div (by omega) (by norm_num)]
  rw [this]

theorem gf2Fold_eq_crcFold : ∀ n, n ≤ 16 → ∀ a, gf2Fold n a = crcFold n a := by
  intro n
  induction n with
  | zero => intro _ a; rfl
  | succ m ih =>
    intro hm a
    rw [gf2Fold_succ, crcFold_succ, ih (by omega), gf2Step_eq_crcStep (by omega)]

theorem shiftLeft_or_eq_add {b : Nat} (hb : b < 2 ^ 8) (a : Nat) :
    (a <<< 8) ||| b = a * 2 ^ 8 + b := by
  rw [Nat.shiftLeft_eq]
  calc (a * 2 ^ 8) ||| b = (2 ^ 8 * a) ||| b := by rw [Nat.mul_comm]
    _ = 2 ^ 8 * a + b := (Nat.mul_add_lt_is_or hb a).symm
    _ = a * 2 ^ 8 + b := by rw [Nat.mul_comm]

theorem shiftLeft_or_eq_xor {b : Nat} (hb : b < 2 ^ 8) (a : Nat) :
    (a <<< 8) ||| b = (a <<< 8) ^^^ b := by
  apply Nat.eq_of_testBit_eq
  intro i
  by_cases h : 8 ≤ i
  · have hbf : b.testBit i = false :=
      Nat.testBit_lt_two_pow (lt_of_lt_of_le hb (Nat.pow_le_pow_right (by norm_num) h))
    simp [Nat.testBit_or, Nat.testBit_xor, hbf]
  · simp [Nat.testBit_or, Nat.testBit_xor, Nat.testBit_shiftLeft, h]

theorem xor_shiftLeft_distrib (a b n : Nat) :
    (a ^^^ b) <<< n = (a <<< n) ^^^ (b <<< n) := by
  apply Nat.eq_of_testBit_eq
  intro i
  simp only [Nat.testBit_shiftLeft, Nat.testBit_xor]
  cases h : decide (n ≤ i) <;> simp

/-- C1: is_crc_valid value crc returns true if and only if the 24-bit
message value * 256 + crc has remainder zero under GF(2) polynomial long
division by the generator x^8 + x^5 + x^4 + 1, and after the 16
XOR-and-shift iterations the accumulated row having its lower 8 bits
equal to zero coincides with the row being exactly zero, for every 16-bit
value and 8-bit crc. -/
theorem is_crc_valid_iff_gf2_remainder_zero (value crc : Nat)
    (hv : value < 65536) (hc : crc < 256) :
    (is_crc_valid value crc = true ↔ gf2Remainder (value * 256 + crc) = 0)
    ∧ (crcFold 16 (value * 256 + crc) % 256 = 0 ↔
        crcFold 16 (value * 256 + crc) = 0) := by
  have e8 : (2 : ℕ) ^ 8 = 256 := by norm_num
  have hc8 : crc < 2 ^ 8 := by rw [e8]; exact hc
  have hrow : ((value % 65536) <<< 8) ||| (crc % 256) = value * 256 + crc := by
    rw [Nat.mod_eq_of_lt hv, Nat.mod_eq_of_lt hc, shiftLeft_or_eq_add hc8, e8]
  have hmsg : value * 256 + crc < 2 ^ 24 := by
    have e24 : (2 : ℕ) ^ 24 = 16777216 := by norm_num
    rw [e24]
    omega
  constructor
  · unfold is_crc_valid gf2Remainder
    rw [hrow, gf2Fold_eq_crcFold 16 (le_refl 16)]
    simp [beq_iff_eq]
  · have hlt : crcFold 16 (value * 256 + crc) < 256 := by
      simpa using crcFold_lt 16 (le_refl 16) _ hmsg
    constructor
    · intro h
      rwa [Nat.mod_eq_of_lt hlt] at h
    · intro h
      rw [h]

theorem is_crc_valid_iff_gf2_remainder_zero_witness :
    (0x4E85 < 65536 ∧ 0x6B < 256) ∧
    ((is_crc_valid 0x4E85 0x6B = true ↔ gf2Remainder (0x4E85 * 256 + 0x6B) = 0)
      ∧ (crcFold 16 (0x4E85 * 256 + 0x6B) % 256 = 0 ↔
          crcFold 16 (0x4E85 * 256 + 0x6B) = 0)) :=
  ⟨⟨by decide, by decide⟩,
    is_crc_valid_iff_gf2_remainder_zero 0x4E85 0x6B (by decide) (by decide)⟩

/-- C2: for every 16-bit word some 8-bit checksum makes is_crc_valid
report valid, and for any valid pair, flipping any single one of the 24
bits (any bit of the word or of the checksum) makes is_crc_valid report
invalid. -/
theorem crc_checksum_exists_and_single_bit_flip_detected (w : Nat)
    (hw : w < 65536) :
    (∃ c, c < 256 ∧ is_crc_valid w c = true)
    ∧ (∀ c, c < 256 → is_crc_valid w c = true →
        (∀ k, k < 16 → is_crc_valid (w ^^^ 2 ^ k) c = false)
        ∧ (∀ k, k < 8 → is_crc_valid w (c ^^^ 2 ^ k) = false)) := by
  have e8 : (2 : ℕ) ^ 8 = 256 := by norm_num
  have e16 : (2 : ℕ) ^ 16 = 65536 := by norm_num
  have hval : ∀ v c, v < 65536 → c < 256 →
      (is_crc_valid v c = true ↔ crcFold 16 ((v <<< 8) ^^^ c) = 0) := by
    intro v c hv hc
    unfold is_crc_valid
    rw [Nat.mod_eq_of_lt hv, Nat.mod_eq_of_lt hc,
      shiftLeft_or_eq_xor (by rw [e8]; exact hc)]
    simp [beq_iff_eq]
  have hsh : ∀ v, v < 65536 → v <<< 8 < 2 ^ 24 := by
    intro v hv
    rw [Nat.shiftLeft_eq, e8]
    have e24 : (2 : ℕ) ^ 24 = 16777216 := by norm_num
    rw [e24]
    omega
  constructor
  · have hc0 : crcFold 16 (w <<< 8) < 256 := by
      simpa using crcFold_lt 16 (le_refl 16) _ (hsh w hw)
    refine ⟨crcFold 16 (w <<< 8), hc0, ?_⟩
    rw [hval w _ hw hc0, crcFold_xor,
      crcFold_eq_of_lt 16 (le_refl 16) (crcFold 16 (w <<< 8)) (by rw [e8]; exact hc0),
      Nat.xor_self]
  · intro c hc hvalid
    have h0 : crcFold 16 ((w <<< 8) ^^^ c) = 0 := (hval w c hw hc).mp hvalid
    constructor
    · intro k hk
      have hw2 : w ^^^ 2 ^ k < 65536 := by
        rw [← e16]
        rw [← e16] at hw
        exact Nat.xor_lt_two_pow hw (Nat.pow_lt_pow_right (by norm_num) hk)
      have hp : (2 : ℕ) ^ k <<< 8 = 2 ^ (k + 8) := by
        rw [Nat.shiftLeft_eq, ← pow_add]
      have hrow2 : ((w ^^^ 2 ^ k) <<< 8) ^^^ c = ((w <<< 8) ^^^ c) ^^^ 2 ^ (k + 8) := by
        rw [xor_shiftLeft_distrib, hp, Nat.xor_assoc, Nat.xor_assoc,
          Nat.xor_comm (2 ^ (k + 8)) c]
      have hne : crcFold 16 (((w ^^^ 2 ^ k) <<< 8) ^^^ c) ≠ 0 := by
        rw [hrow2, crcFold_xor, h0, Nat.zero_xor]
        exact crcFold_two_pow_ne (k + 8) (by omega)
      cases hb : is_crc_valid (w ^^^ 2 ^ k) c with
      | false => rfl
      | true => exact absurd ((hval _ c hw2 hc).mp hb) hne
    · intro k hk
      have hc2 : c ^^^ 2 ^ k < 256 := by
        rw [← e8]
        rw [← e8] at hc
        exact Nat.xor_lt_two_pow hc (Nat.pow_lt_pow_right (by norm_num) hk)
      have hrow2 : (w <<< 8) ^^^ (c ^^^ 2 ^ k) = ((w <<< 8) ^^^ c) ^^^ 2 ^ k := by
        rw [Nat.xor_assoc]
      have hne : crcFold 16 ((w <<< 8) ^^^ (c ^^^ 2 ^ k)) ≠ 0 := by
        rw [hrow2, crcFold_xor, h0, Nat.zero_xor]
        exact crcFold_two_pow_ne k (by omega)
      cases hb : is_crc_valid w (c ^^^ 2 ^ k) with
      | false => rfl
      | true => exact absurd ((hval w _ hw hc2).mp hb) hne

theorem crc_checksum_exists_and_single_bit_flip_detected_witness :
    0x683A < 65536 ∧
    ((∃ c, c < 256 ∧ is_crc_valid 0x683A c = true)
    ∧ (∀ c, c < 256 → is_crc_valid 0x683A c = true →
        (∀ k, k < 16 → is_crc_valid (0x683A ^^^ 2 ^ k) c = false)
        ∧ (∀ k, k < 8 → is_crc_valid 0x683A (c ^^^ 2 ^ k) = false))) :=
  ⟨by decide, crc_checksum_exists_and_single_bit_flip_detected 0x683A (by decide)⟩

/-- C5: on a successful transport read, read_value returns the 16-bit
word assembled big-endian from the two data bytes (first byte high)
ANDed with 0xFFFC, the returned value has its low two status bits equal
to zero, and the returned value does not depend on the checksum byte
delivered by the sensor: a failed CRC check only logs. -/
theorem read_value_success_big_endian_masked (env : I2CReadEnv) (command : Nat)
    (h1 : env.alloc1 = true) (h2 : env.ret1 = EspErr.espOk)
    (h3 : env.alloc2 = true) (h4 : env.ret2 = EspErr.espOk) :
    read_value env command = ((env.msb % 256) * 256 + env.lsb % 256) &&& 0xFFFC
    ∧ read_value env command % 4 = 0
    ∧ ∀ c2, read_value { env with crc := c2 } command = read_value env command := by
  have e8 : (2 : ℕ) ^ 8 = 256 := by norm_num
  have hv : read_value env command =
      (((env.msb % 256) <<< 8) ||| (env.lsb % 256)) &&& 0xFFFC := by
    unfold read_value
    rw [h1, h2, h3, h4]
    simp
  have hl : env.lsb % 256 < 2 ^ 8 := by
    rw [e8]
    exact Nat.mod_lt _ (by norm_num)
  refine ⟨?_, ?_, ?_⟩
  · rw [hv, shiftLeft_or_eq_add hl, e8]
  · have hm : ∀ y : Nat, y % 4 = y &&& 3 := by
      intro y
      have h := Nat.and_pow_two_sub_one_eq_mod y 2
      norm_num at h
      omega
    have hz : (0xFFFC &&& 3 : Nat) = 0 := by decide
    rw [hv, hm, Nat.and_assoc, hz, Nat.and_zero]
  · intro c2
    rfl

theorem read_value_success_big_endian_masked_witness :
    ((I2CReadEnv.mk true EspErr.espOk true 0x63 0x8E 0x20 EspErr.espOk).alloc1 = true
      ∧ (I2CReadEnv.mk true EspErr.espOk true 0x63 0x8E 0x20 EspErr.espOk).ret1 = EspErr.espOk
      ∧ (I2CReadEnv.mk true EspErr.espOk true 0x63 0x8E 0x20 EspErr.espOk).alloc2 = true
      ∧ (I2CReadEnv.mk true EspErr.espOk true 0x63 0x8E 0x20 EspErr.espOk).ret2 = EspErr.espOk)
    ∧ (read_value (I2CReadEnv.mk true EspErr.espOk true 0x63 0x8E 0x20 EspErr.espOk) 0xF3 =
        ((0x63 % 256) * 256 + 0x8E % 256) &&& 0xFFFC
      ∧ read_value (I2CReadEnv.mk true EspErr.espOk true 0x63 0x8E 0x20 EspErr.espOk) 0xF3 % 4 = 0
      ∧ ∀ c2, read_value { I2CReadEnv.mk true EspErr.espOk true 0x63 0x8E 0x20 EspErr.espOk with crc := c2 } 0xF3 =
          read_value (I2CReadEnv.mk true EspErr.espOk true 0x63 0x8E 0x20 EspErr.espOk) 0xF3) :=
  ⟨⟨rfl, rfl, rfl, rfl⟩,
    read_value_success_big_endian_masked
      (I2CReadEnv.mk true EspErr.espOk true 0x63 0x8E 0x20 EspErr.espOk) 0xF3 rfl rfl rfl rfl⟩

/-- C6: read_value returns the sentinel 0 whenever transaction setup
fails (either command link cannot be allocated) or the transport reports
a non-success status on either the command-write transaction or the
three-byte read transaction, for every command code. -/
theorem read_value_failure_returns_zero (env : I2CReadEnv) (command : Nat)
    (h : env.alloc1 = false ∨ env.ret1 ≠ EspErr.espOk
      ∨ env.alloc2 = false ∨ env.ret2 ≠ EspErr.espOk) :
    read_value env command = 0 := by
  unfold read_value
  split_ifs with g1 g2 g3 g4
  · rfl
  · rfl
  · rfl
  · rfl
  · rcases h with h | h | h | h
    · exact absurd h g1
    · exact absurd h g2
    · exact absurd h g3
    · exact absurd h g4

theorem read_value_failure_returns_zero_witness :
    ((I2CReadEnv.mk true EspErr.espErrTimeout true 0x63 0x8E 0x20 EspErr.espOk).alloc1 = false
      ∨ (I2CReadEnv.mk true EspErr.espErrTimeout true 0x63 0x8E 0x20 EspErr.espOk).ret1 ≠ EspErr.espOk
      ∨ (I2CReadEnv.mk true EspErr.espErrTimeout true 0x63 0x8E 0x20 EspErr.espOk).alloc2 = false
      ∨ (I2CReadEnv.mk true EspErr.espErrTimeout true 0x63 0x8E 0x20 EspErr.espOk).ret2 ≠ EspErr.espOk)
    ∧ read_value (I2CReadEnv.mk true EspErr.espErrTimeout true 0x63 0x8E 0x20 EspErr.espOk) 0xF5 = 0 :=
  ⟨Or.inr (Or.inl (by decide)),
    read_value_failure_returns_zero _ 0xF5 (Or.inr (Or.inl (by decide)))⟩

/-- C7: htu21d_write_user_register maps each of the four transport
failure categories to the corresponding distinct driver status code, and
htu21d_soft_reset maps every transport outcome to the same status code
as the register write path. -/
theorem write_user_register_and_soft_reset_error_mapping :
    (∀ v, htu21d_write_user_register ⟨true, EspErr.espErrInvalidArg⟩ v = HTU21D_ERR_INVALID_ARG)
    ∧ (∀ v, htu21d_write_user_register ⟨true, EspErr.espFail⟩ v = HTU21D_ERR_FAIL)
    ∧ (∀ v, htu21d_write_user_register ⟨true, EspErr.espErrInvalidState⟩ v = HTU21D_ERR_INVALID_STATE)
    ∧ (∀ v, htu21d_write_user_register ⟨true, EspErr.espErrTimeout⟩ v = HTU21D_ERR_TIMEOUT)
    ∧ (HTU21D_ERR_INVALID_ARG ≠ HTU21D_ERR_FAIL
      ∧ HTU21D_ERR_INVALID_ARG ≠ HTU21D_ERR_INVALID_STATE
      ∧ HTU21D_ERR_INVALID_ARG ≠ HTU21D_ERR_TIMEOUT
      ∧ HTU21D_ERR_FAIL ≠ HTU21D_ERR_INVALID_STATE
      ∧ HTU21D_ERR_FAIL ≠ HTU21D_ERR_TIMEOUT
      ∧ HTU21D_ERR_INVALID_STATE ≠ HTU21D_ERR_TIMEOUT)
    ∧ (∀ env v, (htu21d_soft_reset env).1 = htu21d_write_user_register env v) := by
  refine ⟨fun v => rfl, fun v => rfl, fun v => rfl, fun v => rfl,
    ⟨by decide, by decide, by decide, by decide, by decide, by decide⟩, ?_⟩
  intro env v
  unfold htu21d_soft_reset htu21d_write_user_register
  by_cases h : env.alloc = false
  · rw [if_pos h, if_pos h]
  · rw [if_neg h, if_neg h]
    cases env.ret <;> rfl

/-- C10: any transport result that is neither success nor one of the
four enumerated error categories (for example out-of-memory) makes both
htu21d_write_user_register and htu21d_soft_reset return HTU21D_ERR_OK,
and htu21d_soft_reset still performs its 15 ms post-reset delay, because
the switch statements have no default branch for other codes. -/
theorem unmapped_transport_error_returns_ok (e : EspErr) (v : Nat)
    (h0 : e ≠ EspErr.espOk) (h1 : e ≠ EspErr.espErrInvalidArg)
    (h2 : e ≠ EspErr.espFail) (h3 : e ≠ EspErr.espErrInvalidState)
    (h4 : e ≠ EspErr.espErrTimeout) :
    htu21d_write_user_register ⟨true, e⟩ v = HTU21D_ERR_OK
    ∧ htu21d_soft_reset ⟨true, e⟩ = (HTU21D_ERR_OK, HTU21_RESET_TIME) := by
  cases e with
  | espOk => exact absurd rfl h0
  | espErrInvalidArg => exact absurd rfl h1
  | espFail => exact absurd rfl h2
  | espErrInvalidState => exact absurd rfl h3
  | espErrTimeout => exact absurd rfl h4
  | espErrNoMem => exact ⟨rfl, rfl⟩
  | espErrInvalidSize => exact ⟨rfl, rfl⟩

theorem unmapped_transport_error_returns_ok_witness :
    (EspErr.espErrNoMem ≠ EspErr.espOk
      ∧ EspErr.espErrNoMem ≠ EspErr.espErrInvalidArg
      ∧ EspErr.espErrNoMem ≠ EspErr.espFail
      ∧ EspErr.espErrNoMem ≠ EspErr.espErrInvalidState
      ∧ EspErr.espErrNoMem ≠ EspErr.espErrTimeout)
    ∧ (htu21d_write_user_register ⟨true, EspErr.espErrNoMem⟩ 0x42 = HTU21D_ERR_OK
      ∧ htu21d_soft_reset ⟨true, EspErr.espErrNoMem⟩ = (HTU21D_ERR_OK, HTU21_RESET_TIME)) :=
  ⟨⟨by decide, by decide, by decide, by decide, by decide⟩,
    unmapped_transport_error_returns_ok EspErr.espErrNoMem 0x42
      (by decide) (by decide) (by decide) (by decide) (by decide)⟩

/-- C8: if the sensor-presence probe reports non-success, htu21d_init
returns the not-found error and the soft-reset command is never
attempted; once the probe succeeds the soft reset runs and its result is
propagated as the return value of initialization. -/
theorem init_probe_failure_skips_soft_reset (env : InitEnv)
    (hcfg : env.configOk = true) (hins : env.installOk = true)
    (hpa : env.probeAlloc = true) :
    (env.probeRet ≠ EspErr.espOk → htu21d_init env = (HTU21D_ERR_NOTFOUND, false))
    ∧ (env.probeRet = EspErr.espOk →
        (htu21d_init env).2 = true
        ∧ (htu21d_init env).1 = (htu21d_soft_reset env.resetEnv).1) := by
  constructor
  · intro h
    unfold htu21d_init
    rw [hcfg, hins, hpa]
    simp [h]
  · intro h
    have hinit : htu21d_init env =
        (if (htu21d_soft_reset env.resetEnv).1 ≠ HTU21D_ERR_OK
          then ((htu21d_soft_reset env.resetEnv).1, true)
          else (HTU21D_ERR_OK, true)) := by
      unfold htu21d_init
      rw [hcfg, hins, hpa, h]
      simp
    by_cases hr : (htu21d_soft_reset env.resetEnv).1 ≠ HTU21D_ERR_OK
    · rw [hinit, if_pos hr]
      exact ⟨rfl, rfl⟩
    · rw [hinit, if_neg hr]
      exact ⟨rfl, (not_ne_iff.mp hr).symm⟩

theorem init_probe_failure_skips_soft_reset_witness :
    ((InitEnv.mk true true true EspErr.espFail (LinkEnv.mk true EspErr.espOk)).configOk = true
      ∧ (InitEnv.mk true true true EspErr.espFail (LinkEnv.mk true EspErr.espOk)).installOk = true
      ∧ (InitEnv.mk true true true EspErr.espFail (LinkEnv.mk true EspErr.espOk)).probeAlloc = true)
    ∧ (((InitEnv.mk true true true EspErr.espFail (LinkEnv.mk true EspErr.espOk)).probeRet ≠ EspErr.espOk →
        htu21d_init (InitEnv.mk true true true EspErr.espFail (LinkEnv.mk true EspErr.espOk)) =
          (HTU21D_ERR_NOTFOUND, false))
      ∧ ((InitEnv.mk true true true EspErr.espFail (LinkEnv.mk true EspErr.espOk)).probeRet = EspErr.espOk →
        (htu21d_init (InitEnv.mk true true true EspErr.espFail (LinkEnv.mk true EspErr.espOk))).2 = true
        ∧ (htu21d_init (InitEnv.mk true true true EspErr.espFail (LinkEnv.mk true EspErr.espOk))).1 =
            (htu21d_soft_reset (InitEnv.mk true true true EspErr.espFail (LinkEnv.mk true EspErr.espOk)).resetEnv).1)) :=
  ⟨⟨rfl, rfl, rfl⟩,
    init_probe_failure_skips_soft_reset
      (InitEnv.mk true true true EspErr.espFail (LinkEnv.mk true EspErr.espOk)) rfl rfl rfl⟩

theorem temp_formula_ne_sentinel {raw : Nat} (h : raw ≠ 0) :
    (raw : ℚ) * 175.72 / 65536.0 - 46.85 ≠ -999 := by
  intro heq
  have hpos : (0 : ℚ) < (raw : ℚ) := by exact_mod_cast Nat.pos_of_ne_zero h
  linarith

theorem temp_formula_ne_zero_value {raw : Nat} (h : raw ≠ 0) :
    (raw : ℚ) * 175.72 / 65536.0 - 46.85 ≠ (0 : ℚ) * 175.72 / 65536.0 - 46.85 := by
  intro heq
  have hpos : (0 : ℚ) < (raw : ℚ) := by exact_mod_cast Nat.pos_of_ne_zero h
  have h0 : (0 : ℚ) * 175.72 / 65536.0 - 46.85 = -46.85 := by norm_num
  rw [h0] at heq
  linarith

theorem humd_formula_ne_sentinel {raw : Nat} (h : raw ≠ 0) :
    (raw : ℚ) * 125.0 / 65536.0 - 6.0 ≠ -999 := by
  intro heq
  have hpos : (0 : ℚ) < (raw : ℚ) := by exact_mod_cast Nat.pos_of_ne_zero h
  linarith

theorem humd_formula_ne_zero_value {raw : Nat} (h : raw ≠ 0) :
    (raw : ℚ) * 125.0 / 65536.0 - 6.0 ≠ (0 : ℚ) * 125.0 / 65536.0 - 6.0 := by
  intro heq
  have hpos : (0 : ℚ) < (raw : ℚ) := by exact_mod_cast Nat.pos_of_ne_zero h
  have h0 : (0 : ℚ) * 125.0 / 65536.0 - 6.0 = -6.0 := by norm_num
  rw [h0] at heq
  linarith

/-- C9: the public read functions return the sentinel -999 exactly when
read_value returns 0 (transport failure or an all-zero masked raw
reading), and consequently the formula values for raw 0 (namely -46.85
degrees Celsius and -6.0 percent relative humidity) are never returned
by the public read functions. -/
theorem read_sentinel_iff_raw_zero (env : I2CReadEnv) :
    (htu21d_read_temperature env = -999 ↔
      read_value env TRIGGER_TEMP_MEASURE_NOHOLD = 0)
    ∧ (htu21d_read_humidity env = -999 ↔
      read_value env TRIGGER_HUMD_MEASURE_NOHOLD = 0)
    ∧ htu21d_read_temperature env ≠ (0 : ℚ) * 175.72 / 65536.0 - 46.85
    ∧ htu21d_read_humidity env ≠ (0 : ℚ) * 125.0 / 65536.0 - 6.0 := by
  refine ⟨⟨?_, ?_⟩, ⟨?_, ?_⟩, ?_, ?_⟩
  · intro heq
    by_contra h
    simp only [htu21d_read_temperature] at heq
    rw [if_neg h] at heq
    exact temp_formula_ne_sentinel h heq
  · intro h
    simp [htu21d_read_temperature, h]
  · intro heq
    by_contra h
    simp only [htu21d_read_humidity] at heq
    rw [if_neg h] at heq
    exact humd_formula_ne_sentinel h heq
  · intro h
    simp [htu21d_read_humidity, h]
  · intro heq
    by_cases h : read_value env TRIGGER_TEMP_MEASURE_NOHOLD = 0
    · simp only [htu21d_read_temperature] at heq
      rw [if_pos h] at heq
      norm_num at heq
    · simp only [htu21d_read_temperature] at heq
      rw [if_neg h] at heq
      exact temp_formula_ne_zero_value h heq
  · intro heq
    by_cases h : read_value env TRIGGER_HUMD_MEASURE_NOHOLD = 0
    · simp only [htu21d_read_humidity] at heq
      rw [if_pos h] at heq
      norm_num at heq
    · simp only [htu21d_read_humidity] at heq
      rw [if_neg h] at heq
      exact humd_formula_ne_zero_value h heq

/-- C3 counterexample: on a successful transport read delivering the data
bytes 0x00 0x00 (raw value 0), htu21d_read_temperature returns -999 and
not the formula value 0 * 175.72 / 65536.0 - 46.85 = -46.85, and
htu21d_read_humidity returns -999 and not -6.0. -/
theorem read_raw_zero_returns_sentinel_counterexample :
    read_value (I2CReadEnv.mk true EspErr.espOk true 0 0 0 EspErr.espOk)
      TRIGGER_TEMP_MEASURE_NOHOLD = 0
    ∧ htu21d_read_temperature (I2CReadEnv.mk true EspErr.espOk true 0 0 0 EspErr.espOk) = -999
    ∧ htu21d_read_temperature (I2CReadEnv.mk true EspErr.espOk true 0 0 0 EspErr.espOk) ≠
        (0 : ℚ) * 175.72 / 65536.0 - 46.85
    ∧ htu21d_read_humidity (I2CReadEnv.mk true EspErr.espOk true 0 0 0 EspErr.espOk) = -999
    ∧ htu21d_read_humidity (I2CReadEnv.mk true EspErr.espOk true 0 0 0 EspErr.espOk) ≠
        (0 : ℚ) * 125.0 / 65536.0 - 6.0 := by
  have h0t : read_value (I2CReadEnv.mk true EspErr.espOk true 0 0 0 EspErr.espOk)
      TRIGGER_TEMP_MEASURE_NOHOLD = 0 := by decide
  have h0h : read_value (I2CReadEnv.mk true EspErr.espOk true 0 0 0 EspErr.espOk)
      TRIGGER_HUMD_MEASURE_NOHOLD = 0 := by decide
  have ht : htu21d_read_temperature (I2CReadEnv.mk true EspErr.espOk true 0 0 0 EspErr.espOk) = -999 := by
    simp [htu21d_read_temperature, h0t]
  have hh : htu21d_read_humidity (I2CReadEnv.mk true EspErr.espOk true 0 0 0 EspErr.espOk) = -999 := by
    simp [htu21d_read_humidity, h0h]
  refine ⟨h0t, ht, ?_, hh, ?_⟩
  · rw [ht]
    norm_num
  · rw [hh]
    norm_num

theorem read_value_success_eq (env : I2CReadEnv) (command : Nat)
    (h1 : env.alloc1 = true) (h2 : env.ret1 = EspErr.espOk)
    (h3 : env.alloc2 = true) (h4 : env.ret2 = EspErr.espOk) :
    read_value env command = ((env.msb % 256) * 256 + env.lsb % 256) &&& 0xFFFC := by
  have e8 : (2 : ℕ) ^ 8 = 256 := by norm_num
  have hl : env.lsb % 256 < 2 ^ 8 := by
    rw [e8]
    exact Nat.mod_lt _ (by norm_num)
  have hv : read_value env command =
      (((env.msb % 256) <<< 8) ||| (env.lsb % 256)) &&& 0xFFFC := by
    unfold read_value
    rw [h1, h2, h3, h4]
    simp
  rw [hv, shiftLeft_or_eq_add hl, e8]

/-- C3 (amended): on a successful transport read whose two data bytes
assemble to the masked word m, the public read functions return exactly
the fixed linear transforms m * 175.72 / 65536.0 - 46.85 and
m * 125.0 / 65536.0 - 6.0 whenever m is nonzero, and return the sentinel
-999 rather than the formula values when m is zero; the formulas
therefore apply to every nonzero masked raw value but not to raw 0. -/
theorem read_conversion_formulas (env : I2CReadEnv)
    (h1 : env.alloc1 = true) (h2 : env.ret1 = EspErr.espOk)
    (h3 : env.alloc2 = true) (h4 : env.ret2 = EspErr.espOk) :
    (((env.msb % 256) * 256 + env.lsb % 256) &&& 0xFFFC ≠ 0 →
      htu21d_read_temperature env =
        ((((env.msb % 256) * 256 + env.lsb % 256) &&& 0xFFFC : ℕ) : ℚ) * 175.72 / 65536.0 - 46.85
      ∧ htu21d_read_humidity env =
        ((((env.msb % 256) * 256 + env.lsb % 256) &&& 0xFFFC : ℕ) : ℚ) * 125.0 / 65536.0 - 6.0)
    ∧ (((env.msb % 256) * 256 + env.lsb % 256) &&& 0xFFFC = 0 →
      htu21d_read_temperature env = -999 ∧ htu21d_read_humidity env = -999) := by
  have hrvt := read_value_success_eq env TRIGGER_TEMP_MEASURE_NOHOLD h1 h2 h3 h4
  have hrvh := read_value_success_eq env TRIGGER_HUMD_MEASURE_NOHOLD h1 h2 h3 h4
  constructor
  · intro hm
    constructor
    · simp only [htu21d_read_temperature]
      rw [hrvt, if_neg hm]
    · simp only [htu21d_read_humidity]
      rw [hrvh, if_neg hm]
  · intro hm
    constructor
    · simp only [htu21d_read_temperature]
      rw [hrvt, if_pos hm]
    · simp only [htu21d_read_humidity]
      rw [hrvh, if_pos hm]

theorem read_conversion_formulas_witness :
    ((I2CReadEnv.mk true EspErr.espOk true 0x63 0x8E 0x20 EspErr.espOk).alloc1 = true
      ∧ (I2CReadEnv.mk true EspErr.espOk true 0x63 0x8E 0x20 EspErr.espOk).ret1 = EspErr.espOk
      ∧ (I2CReadEnv.mk true EspErr.espOk true 0x63 0x8E 0x20 EspErr.espOk).alloc2 = true
      ∧ (I2CReadEnv.mk true EspErr.espOk true 0x63 0x8E 0x20 EspErr.espOk).ret2 = EspErr.espOk)
    ∧ ((((0x63 % 256) * 256 + 0x8E % 256) &&& 0xFFFC ≠ 0 →
        htu21d_read_temperature (I2CReadEnv.mk true EspErr.espOk true 0x63 0x8E 0x20 EspErr.espOk) =
          ((((0x63 % 256) * 256 + 0x8E % 256) &&& 0xFFFC : ℕ) : ℚ) * 175.72 / 65536.0 - 46.85
        ∧ htu21d_read_humidity (I2CReadEnv.mk true EspErr.espOk true 0x63 0x8E 0x20 EspErr.espOk) =
          ((((0x63 % 256) * 256 + 0x8E % 256) &&& 0xFFFC : ℕ) : ℚ) * 125.0 / 65536.0 - 6.0)
      ∧ ((((0x63 % 256) * 256 + 0x8E % 256) &&& 0xFFFC = 0 →
        htu21d_read_temperature (I2CReadEnv.mk true EspErr.espOk true 0x63 0x8E 0x20 EspErr.espOk) = -999
        ∧ htu21d_read_humidity (I2CReadEnv.mk true EspErr.espOk true 0x63 0x8E 0x20 EspErr.espOk) = -999))) :=
  ⟨⟨rfl, rfl, rfl, rfl⟩,
    read_conversion_formulas (I2CReadEnv.mk true EspErr.espOk true 0x63 0x8E 0x20 EspErr.espOk)
      rfl rfl rfl rfl⟩

theorem set_resolution_lt (a b : Nat) : htu21d_set_resolution a b < 256 := by
  have e8 : (2 : ℕ) ^ 8 = 256 := by norm_num
  unfold htu21d_set_resolution
  rw [← e8]
  exact Nat.or_lt_two_pow (Nat.and_lt_two_pow _ (by norm_num))
    (Nat.and_lt_two_pow _ (by norm_num))

theorem set_resolution_mask_idem (a b : Nat) :
    htu21d_set_resolution a b &&& 0b10000001 = htu21d_set_resolution a b := by
  unfold htu21d_set_resolution
  rw [Nat.and_distrib_right, Nat.and_assoc, Nat.and_assoc, Nat.and_self]

theorem get_set_resolution (a b : Nat) :
    htu21d_get_resolution (htu21d_set_resolution a b) =
      ((a % 256) &&& 0b10000001) ||| ((b % 256) &&& 0b10000001) := by
  unfold htu21d_get_resolution
  rw [Nat.mod_eq_of_lt (set_resolution_lt a b), set_resolution_mask_idem]
  rfl

/-- C4 counterexample: with prior user register content 0x81 (both
resolution bits set, heater and reserved bits clear) and requested
resolution 0x00, the set-then-get round trip yields 0x81 and not the
requested two-bit resolution 0x00: the old resolution bits are ORed into
the new value instead of being replaced. -/
theorem set_resolution_round_trip_counterexample :
    htu21d_get_resolution (htu21d_set_resolution 0x81 0x00) = 0x81
    ∧ htu21d_get_resolution (htu21d_set_resolution 0x81 0x00) ≠ (0x00 % 256) &&& 0b10000001 := by
  exact ⟨by decide, by decide⟩

/-- C4 (amended): the set-then-get round trip yields the bitwise OR of
the old and the new resolution bits,
(reg AND 0x81) OR (resolution AND 0x81).  The result is independent of
the heater/reserved bits (bits 1 through 6) of the prior register
content, and equals the requested two-bit resolution whenever the prior
resolution bits are zero, but the old resolution bits previously stored
in the register are not discarded in general. -/
theorem set_resolution_round_trip (reg reg2 r : Nat)
    (hreg : reg < 256) (hreg2 : reg2 < 256) :
    htu21d_get_resolution (htu21d_set_resolution reg r) =
      (reg &&& 0b10000001) ||| ((r % 256) &&& 0b10000001)
    ∧ (reg &&& 0b10000001 = reg2 &&& 0b10000001 →
        htu21d_get_resolution (htu21d_set_resolution reg r) =
          htu21d_get_resolution (htu21d_set_resolution reg2 r))
    ∧ (reg &&& 0b10000001 = 0 →
        htu21d_get_resolution (htu21d_set_resolution reg r) = (r % 256) &&& 0b10000001) := by
  have h1 := get_set_resolution reg r
  have h2 := get_set_resolution reg2 r
  rw [Nat.mod_eq_of_lt hreg] at h1
  rw [Nat.mod_eq_of_lt hreg2] at h2
  refine ⟨h1, ?_, ?_⟩
  · intro he
    rw [h1, h2, he]
  · intro hz
    rw [h1, hz, Nat.zero_or]

theorem set_resolution_round_trip_witness :
    (0x02 < 256 ∧ 0x7E < 256) ∧
    (htu21d_get_resolution (htu21d_set_resolution 0x02 0x81) =
      (0x02 &&& 0b10000001) ||| ((0x81 % 256) &&& 0b10000001)
    ∧ (0x02 &&& 0b10000001 = 0x7E &&& 0b10000001 →
        htu21d_get_resolution (htu21d_set_resolution 0x02 0x81) =
          htu21d_get_resolution (htu21d_set_resolution 0x7E 0x81))
    ∧ (0x02 &&& 0b10000001 = 0 →
        htu21d_get_resolution (htu21d_set_resolution 0x02 0x81) = (0x81 % 256) &&& 0b10000001)) :=
  ⟨⟨by decide, by decide⟩, set_resolution_round_trip 0x02 0x7E 0x81 (by decide) (by decide)⟩
